import Mathlib

/-!
Shallow embedding of the `ytmusic-distube-plugin` repository: the cookie
lifecycle manager (`src/cookieManager.js`) and the resolution adapter
(`YouTubeMusicPlugin`).

Modelling conventions:
* JavaScript numbers are modelled as exact rationals (`ℚ`); where `NaN`
  or an infinity can arise (duration parsing) the type `JsNum` carries
  them explicitly.
* A missing (`undefined`) object field is `Option.none`.
* JavaScript truthiness on a numeric field: truthy iff present and nonzero
  (`NaN`, which is also falsy, is not representable in the rational model).
* Side effects (file writes, callback invocations, browser teardown) are
  explicit event traces; asynchronous external calls are oracles supplied
  by an environment record, each returning `Except` to model a possible
  JavaScript exception carrying its message string.
-/

namespace YtmPlugin

/-- One cookie record in EditThisCookie JSON format (interface `Cookie` in
the repository's type declarations).  `expirationDate` is epoch seconds;
`none` models an absent (`undefined`) field. -/
structure Cookie where
  name : String := ""
  value : String := ""
  domain : Option String := none
  path : Option String := none
  expirationDate : Option ℚ := none
  hostOnly : Option Bool := none
  httpOnly : Option Bool := none
  secure : Option Bool := none
  session : Option Bool := none
  sameSite : Option String := none
  deriving Repr, DecidableEq

/-- The mutable fields of a `CookieManager` instance
(`src/cookieManager.js`, constructor lines 11-23).  The two callback
options are modelled by whether a callback is registered (non-null), and
`puppeteerLoaded` models `this.puppeteer` being non-null. -/
structure CookieManager where
  cookiesPath : String
  refreshInterval : ℚ
  refreshBeforeExpiry : ℚ
  autoRefresh : Bool
  headless : Bool
  refreshTimerSet : Bool
  hasOnCookiesUpdated : Bool
  hasOnRefreshError : Bool
  puppeteerLoaded : Bool
  deriving Repr, DecidableEq

/-- The object returned by `CookieManager.validateCookies`
(`src/cookieManager.js` lines 82-87 and 116-126).  `nearestExpiry` is kept
in epoch seconds (`none` = the code's `null`, when no cookie carried a
truthy expiration date). -/
structure ValidationResult where
  valid : Bool
  expired : Bool
  expiringSoon : Bool
  nearestExpiry : Option ℚ
  message : String
  deriving Repr, DecidableEq

/-- Loop accumulator of the `for (const cookie of cookies)` loop in
`validateCookies` (lines 93-111): `hasExpired`, `expiringSoon`,
`nearestExpiry` (initialised to `Infinity`, modelled as `none`). -/
structure ValidAcc where
  hasExpired : Bool
  expiringSoon : Bool
  nearestExpiry : Option ℚ
  deriving Repr, DecidableEq

/-- `if (cookie.expirationDate < nearestExpiry) nearestExpiry = cookie.expirationDate`
with `nearestExpiry` starting at `Infinity` (`none`). -/
def minExpiry (e : ℚ) : Option ℚ → Option ℚ
  | none => some e
  | some m => if e < m then some e else some m

/-- One iteration of the cookie loop in `validateCookies` (lines 97-111).
The guard `if (cookie.expirationDate)` is JavaScript truthiness: the field
must be present and nonzero. -/
def validateStep (now threshold : ℚ) (acc : ValidAcc) (c : Cookie) : ValidAcc :=
  match c.expirationDate with
  | none => acc
  | some e =>
    if e = 0 then acc
    else
      let acc1 :=
        if e < now then { acc with hasExpired := true }
        else if e < threshold then { acc with expiringSoon := true }
        else acc
      { acc1 with nearestExpiry := minExpiry e acc1.nearestExpiry }

/-- Stand-in for `new Date(nearestExpiry * 1000).toISOString()` inside the
"expiring soon" message (line 124).  The exact text is produced by the
JavaScript `Date` builtin; no claim inspects it, so it is rendered
abstractly from the timestamp.  `none` (optional chaining on `null`)
renders as the template literal would: `"undefined"`. -/
def isoStringOpt : Option ℚ → String
  | none => "undefined"
  | some t => "Date(" ++ toString t ++ ")"

/-- The early-return result for empty or non-array input (lines 81-88). -/
def noCookiesResult : ValidationResult :=
  { valid := false
    expired := false
    expiringSoon := false
    nearestExpiry := none
    message := "No cookies provided" }

/-- `CookieManager.validateCookies` (`src/cookieManager.js` lines 80-127).
`cookies = none` models any non-array argument (e.g. `null`); `now` is the
integer `Math.floor(Date.now() / 1000)`, passed explicitly to keep the
function pure.  The threshold is `now + refreshBeforeExpiry / 1000`
(rational division, as in JavaScript). -/
def validateCookies (m : CookieManager) (now : ℚ) (cookies : Option (List Cookie)) :
    ValidationResult :=
  match cookies with
  | none => noCookiesResult
  | some cs =>
    if cs.length = 0 then noCookiesResult
    else
      let threshold := now + m.refreshBeforeExpiry / 1000
      let acc := cs.foldl (validateStep now threshold) ⟨false, false, none⟩
      { valid := !acc.hasExpired
        expired := acc.hasExpired
        expiringSoon := acc.expiringSoon
        nearestExpiry := acc.nearestExpiry
        message :=
          if acc.hasExpired then "Some cookies have expired"
          else if acc.expiringSoon then
            "Cookies expiring soon (before " ++ isoStringOpt acc.nearestExpiry ++ ")"
          else "All cookies are valid" }

/-- A manager with the constructor's default options
(`cookiesPath` resolved relative to the module directory;
24 h refresh interval in ms; 1 h refresh-before-expiry in ms). -/
def defaultManager : CookieManager :=
  { cookiesPath := "cookies.json"
    refreshInterval := 24 * 60 * 60 * 1000
    refreshBeforeExpiry := 3600000
    autoRefresh := true
    headless := true
    refreshTimerSet := false
    hasOnCookiesUpdated := false
    hasOnRefreshError := false
    puppeteerLoaded := false }

/-- Argument to `CookieManager.loadCookies` (lines 30-41): either a cookie
array or a file path.  (Any other argument type falls through to the
file-loading branch without changing `cookiesPath`; no claim exercises
that case.) -/
inductive CookieSource
  | arr (cookies : List Cookie)
  | path (p : String)
  deriving Repr, DecidableEq

/-- The observable file system: `read p` is `none` when `existsSync p` is
false, `some (.error msg)` when `readFile`/`JSON.parse` throws, and
`some (.ok cs)` when the file parses to a cookie array. -/
structure FileSys where
  read : String → Option (Except String (List Cookie))

/-- Side effects recorded by the manager's operations: invocation of the
`onRefreshError` callback, invocation of the `onCookiesUpdated` callback,
an `fs.writeFile` attempt (with target path and content), and
`browser.close()`. -/
inductive MgrEvent
  | refreshErrorCall
  | cookiesUpdatedCall
  | fileWrite (path : String) (cookies : List Cookie)
  | browserClose
  deriving Repr, DecidableEq

/-- `CookieManager.loadCookies` (lines 30-57) as a state transformer:
returns the updated manager and the loaded array.  An array argument is
returned as-is; a string argument first assigns `this.cookiesPath`; a
missing file yields `[]`; a read/parse error is caught and yields `[]`.
The function never throws past its boundary. -/
def loadCookies (m : CookieManager) (fs : FileSys) :
    CookieSource → CookieManager × List Cookie
  | .arr cs => (m, cs)
  | .path p =>
    match fs.read p with
    | none => ({ m with cookiesPath := p }, [])
    | some (.ok cs) => ({ m with cookiesPath := p }, cs)
    | some (.error _) => ({ m with cookiesPath := p }, [])

/-- `CookieManager.saveCookies` (lines 64-73): serializes the array to the
currently configured path; `writeOk` is the outcome of `fs.writeFile` (a
failure is caught, reported, and surfaces as `false`).  The write attempt
is recorded as an event either way. -/
def saveCookies (m : CookieManager) (writeOk : Bool) (cookies : List Cookie) :
    Bool × List MgrEvent :=
  (writeOk, [MgrEvent.fileWrite m.cookiesPath cookies])

/-- A cookie as returned by Puppeteer's `page.cookies()`. -/
structure PuppeteerCookie where
  name : String
  value : String
  domain : String
  path : String
  expires : ℚ
  httpOnly : Bool
  secure : Bool
  sameSite : Option String
  deriving Repr, DecidableEq

/-- `CookieManager.convertSameSiteToString` (lines 349-356): map lookup
with default `"unspecified"`. -/
def convertSameSiteToString (sameSite : Option String) : String :=
  match sameSite with
  | some "None" => "no_restriction"
  | some "Lax" => "lax"
  | some "Strict" => "strict"
  | _ => "unspecified"

/-- `CookieManager.convertSameSite` (lines 333-341): map lookup with
default `"Lax"`. -/
def convertSameSite (sameSite : Option String) : String :=
  match sameSite with
  | some "no_restriction" => "None"
  | some "lax" => "Lax"
  | some "strict" => "Strict"
  | some "unspecified" => "Lax"
  | _ => "Lax"

/-- The EditThisCookie-format record built from a fresh Puppeteer cookie
(lines 244-255): `expirationDate` is set only when `expires` is truthy and
positive; `session` is true when `expires` is falsy or `-1`. -/
def formatCookie (c : PuppeteerCookie) : Cookie :=
  { domain := some c.domain
    expirationDate := if c.expires ≠ 0 ∧ c.expires > 0 then some c.expires else none
    hostOnly := some (!(c.domain.startsWith "."))
    httpOnly := some c.httpOnly
    name := c.name
    path := some c.path
    sameSite := some (convertSameSiteToString c.sameSite)
    secure := some c.secure
    session := some (decide (c.expires = 0 ∨ c.expires = -1))
    value := c.value }

/-- Outcomes of the external steps of one `refreshCookies` attempt:
whether `require("puppeteer")` succeeds, and the result of each awaited
browser operation (`Except.error msg` models a thrown exception).
`newPage` covers page creation and `setUserAgent`; the best-effort cookie
injection (lines 170-190) is wrapped in its own `try/catch` and has no
modelled observable effect; `loginWait` abstracts the bounded interactive
polling loop (lines 209-235), whose awaits can throw. -/
structure RefreshEnv where
  puppeteerAvailable : Bool
  launch : Except String Unit
  newPage : Except String Unit
  goto : Except String Unit
  isLoggedIn : Except String Bool
  loginWait : Except String Unit
  pageCookies : Except String (List PuppeteerCookie)
  writeOk : Bool

/-- Events emitted by the outer `catch` of `refreshCookies`
(lines 271-277): the `onRefreshError` callback fires only if registered. -/
def refreshErrEvents (m : CookieManager) : List MgrEvent :=
  if m.hasOnRefreshError then [MgrEvent.refreshErrorCall] else []

/-- The interactive login wait (lines 209-235): entered only when the probe
reports not logged in and the manager is non-headless; otherwise it is a
no-op.  Its awaits can throw, which `loginWait` models. -/
def waitStep (headless logged : Bool) (loginWait : Except String Unit) :
    Except String Unit :=
  if ¬ logged ∧ ¬ headless then loginWait else Except.ok ()

/-- Final stage of the inner `try` (lines 240-267): read back the fresh
cookie set, convert it to EditThisCookie format, save it, and fire the
`onCookiesUpdated` callback if registered; the `finally` appends
`browser.close()` (lines 268-270).  A failure of `page.cookies()` falls to
the outer `catch` after the browser is closed. -/
def readBackStep (m1 : CookieManager) (writeOk : Bool) :
    Except String (List PuppeteerCookie) → Option (List Cookie) × List MgrEvent
  | .error _ => (none, MgrEvent.browserClose :: refreshErrEvents m1)
  | .ok pcs =>
    let fresh := pcs.map formatCookie
    let saved := saveCookies m1 writeOk fresh
    let updEvents :=
      if m1.hasOnCookiesUpdated then [MgrEvent.cookiesUpdatedCall] else []
    (some fresh, saved.2 ++ updEvents ++ [MgrEvent.browserClose])

/-- Continuation on the outcome of the (possibly skipped) login wait: a
thrown exception inside the wait loop falls to the outer `catch` after the
browser is closed; otherwise proceed to read back cookies. -/
def waitResultStep (m1 : CookieManager)
    (pc : Except String (List PuppeteerCookie)) (wo : Bool) :
    Except String Unit → Option (List Cookie) × List MgrEvent
  | .error _ => (none, MgrEvent.browserClose :: refreshErrEvents m1)
  | .ok _ => readBackStep m1 wo pc

/-- Continuation on the outcome of the login probe (lines 200-235): a
thrown `page.evaluate` falls to the outer `catch` after the browser is
closed; otherwise the interactive wait (`waitStep`) runs and its outcome is
handled by `waitResultStep`. -/
def loginProbeStep (m1 : CookieManager) (lw : Except String Unit)
    (pc : Except String (List PuppeteerCookie)) (wo : Bool) :
    Except String Bool → Option (List Cookie) × List MgrEvent
  | .error _ => (none, MgrEvent.browserClose :: refreshErrEvents m1)
  | .ok logged => waitResultStep m1 pc wo (waitStep m1.headless logged lw)

/-- The body of the inner `try` of `refreshCookies` from navigation onward
(lines 192-267), for a manager state `m1`: navigate, probe login state,
possibly wait for interactive login, read back the fresh cookies, convert,
save, and notify.  Returns the result and the trace; the `finally` appends
`browser.close()` on every path through this block (lines 268-270). -/
def refreshTryBlock (m1 : CookieManager) (lw : Except String Unit)
    (pc : Except String (List PuppeteerCookie)) (wo : Bool)
    (il : Except String Bool) :
    Except String Unit → Option (List Cookie) × List MgrEvent
  | .error _ => (none, MgrEvent.browserClose :: refreshErrEvents m1)
  | .ok _ => loginProbeStep m1 lw pc wo il

/-- `CookieManager.refreshCookies` (lines 134-278), as a state transformer
returning the updated manager, the result (`none` on any failure), and the
event trace.  When Puppeteer is not yet loaded and `require` fails, the
error callback fires and `null` is returned (lines 137-147); a launch
failure is caught by the outer `catch` with no browser to close; once a
page is open, the existing cookie file is loaded (best-effort injection,
lines 169-190, has no modelled observable effect) and `refreshTryBlock`
runs under the `try/finally`.  The function never throws into the caller. -/
def refreshCookies (m : CookieManager) (fs : FileSys) (env : RefreshEnv) :
    CookieManager × Option (List Cookie) × List MgrEvent :=
  if ¬ m.puppeteerLoaded ∧ ¬ env.puppeteerAvailable then
    (m, none, refreshErrEvents m)
  else
    let m0 := { m with puppeteerLoaded := true }
    match env.launch with
    | .error _ => (m0, none, refreshErrEvents m0)
    | .ok _ =>
      match env.newPage with
      | .error _ => (m0, none, MgrEvent.browserClose :: refreshErrEvents m0)
      | .ok _ =>
        let m1 := (loadCookies m0 fs (.path m0.cookiesPath)).1
        let r := refreshTryBlock m1 env.loginWait env.pageCookies env.writeOk
          env.isLoggedIn env.goto
        (m1, r.1, r.2)

/-- One tick of the `setInterval` callback installed by `startAutoRefresh`
(lines 297-313): load the current cookie file, validate the result, and
call `refreshCookies` only when `!validation.valid || validation.expiringSoon`,
otherwise skip.  The returned `Bool` is instrumentation recording whether
`refreshCookies` was invoked on this tick; the tick's own `try/catch` is
unreachable in the model because every modelled operation returns instead
of throwing. -/
def autoRefreshTick (m : CookieManager) (now : ℚ) (fs : FileSys) (env : RefreshEnv) :
    CookieManager × List MgrEvent × Bool :=
  let loaded := loadCookies m fs (.path m.cookiesPath)
  let validation := validateCookies loaded.1 now (some loaded.2)
  if !validation.valid || validation.expiringSoon then
    let r := refreshCookies loaded.1 fs env
    (r.1, r.2.2, true)
  else (loaded.1, [], false)

/-- `true` iff every `fileWrite` event in the trace targets path `p`. -/
def writesOnlyTo (evs : List MgrEvent) (p : String) : Bool :=
  evs.all fun ev =>
    match ev with
    | MgrEvent.fileWrite q _ => q == p
    | _ => true

/-- A file system with no readable files, for concrete witnesses. -/
def stubFs : FileSys := ⟨fun _ => none⟩

/-- A manager with an `onRefreshError` callback registered. -/
def errorCbManager : CookieManager := { defaultManager with hasOnRefreshError := true }

/-- An environment in which `require("puppeteer")` fails; the remaining
oracle fields are irrelevant on that path. -/
def unavailableEnv : RefreshEnv :=
  { puppeteerAvailable := false
    launch := .ok ()
    newPage := .ok ()
    goto := .ok ()
    isLoggedIn := .ok true
    loginWait := .ok ()
    pageCookies := .ok []
    writeOk := true }

/-- Value of a decimal digit character (codes 48-57), `none` otherwise. -/
def digitVal (c : Char) : Option ℕ :=
  if 48 ≤ c.toNat ∧ c.toNat ≤ 57 then some (c.toNat - 48) else none

/-- One step of decimal-digit accumulation; a non-digit poisons the
accumulator. -/
def digitStep (acc : Option ℕ) (c : Char) : Option ℕ :=
  match acc, digitVal c with
  | some n, some d => some (n * 10 + d)
  | _, _ => none

/-- Decimal value of a nonempty all-digit character list, `none`
otherwise. -/
def parseDigits (l : List Char) : Option ℕ :=
  match l with
  | [] => none
  | _ => l.foldl digitStep (some 0)

/-- Decimal value of a possibly empty all-digit character list (the empty
list counts 0), `none` on any non-digit. -/
def parseDigitsAllowEmpty (l : List Char) : Option ℕ :=
  l.foldl digitStep (some 0)

/-- JavaScript `str.split(sep)` for a single-character separator:
`"".split` yields `[""]`, `":".split(":")` yields `["", ""]`, etc. -/
def splitOnChar (sep : Char) : List Char → List (List Char)
  | [] => [[]]
  | c :: cs =>
    match splitOnChar sep cs with
    | [] => [[]]
    | h :: t => if c = sep then [] :: h :: t else (c :: h) :: t

/-- Value of a hexadecimal digit character, `none` otherwise. -/
def hexVal (c : Char) : Option ℕ :=
  if 48 ≤ c.toNat ∧ c.toNat ≤ 57 then some (c.toNat - 48)
  else if 97 ≤ c.toNat ∧ c.toNat ≤ 102 then some (c.toNat - 87)
  else if 65 ≤ c.toNat ∧ c.toNat ≤ 70 then some (c.toNat - 55)
  else none

/-- Value of a nonempty digit run in the given radix (digit values read by
`dv` and required to be below `radix`), `none` otherwise. -/
def parseRadixDigits (radix : ℕ) (dv : Char → Option ℕ) (l : List Char) :
    Option ℕ :=
  match l with
  | [] => none
  | _ =>
    l.foldl
      (fun acc c =>
        match acc, dv c with
        | some n, some d => if d < radix then some (n * radix + d) else none
        | _, _ => none)
      (some 0)

/-- The `StrWhiteSpaceChar` set of the ECMAScript `Number(string)`
conversion: TAB, LF, VT, FF, CR, SP, NBSP, the Unicode `Zs` separators,
LS, PS, and ZWNBSP. -/
def jsWhitespaceChar (c : Char) : Bool :=
  decide (c.toNat = 9 ∨ c.toNat = 10 ∨ c.toNat = 11 ∨ c.toNat = 12 ∨
    c.toNat = 13 ∨ c.toNat = 32 ∨ c.toNat = 160 ∨ c.toNat = 5760 ∨
    (8192 ≤ c.toNat ∧ c.toNat ≤ 8202) ∨ c.toNat = 8232 ∨ c.toNat = 8233 ∨
    c.toNat = 8239 ∨ c.toNat = 8287 ∨ c.toNat = 12288 ∨ c.toNat = 65279)

/-- Strip leading and trailing JavaScript whitespace, as `Number(string)`
does before parsing. -/
def jsTrim (l : List Char) : List Char :=
  ((l.dropWhile jsWhitespaceChar).reverse.dropWhile jsWhitespaceChar).reverse

/-- The exponent marker of a decimal literal. -/
def isExpChar (c : Char) : Bool := c == 'e' || c == 'E'

/-- The decimal point. -/
def isDotChar (c : Char) : Bool := c == '.'

/-- Split a character list at the first character satisfying `p`:
the prefix before it and, when found, the remainder after it. -/
def splitAtFirst (p : Char → Bool) : List Char → List Char × Option (List Char)
  | [] => ([], none)
  | c :: cs =>
    if p c then ([], some cs)
    else
      let r := splitAtFirst p cs
      (c :: r.1, r.2)

/-- A JavaScript number as produced by `Number(string)` and propagated
through duration arithmetic: `NaN`, the two infinities, or a finite value.
Finite values are exact rationals, the modelling convention for JavaScript
numbers throughout this file: IEEE-754 rounding of decimal literals, the
overflow of huge exponents to `Infinity`, and the underflow of tiny ones
to 0 are not modelled. -/
inductive JsNum
  | nan
  | posInf
  | negInf
  | num (q : ℚ)
  deriving Repr, DecidableEq

/-- JavaScript unary minus on the parsed value. -/
def jsNeg : JsNum → JsNum
  | .nan => .nan
  | .posInf => .negInf
  | .negInf => .posInf
  | .num q => .num (-q)

/-- The `ExponentPart` after the `e`/`E` marker: an optional sign and a
nonempty digit run. -/
def parseExponent (l : List Char) : Option ℤ :=
  match l with
  | [] => none
  | '+' :: rest => (parseDigits rest).map (fun n => (n : ℤ))
  | '-' :: rest => (parseDigits rest).map (fun n => -(n : ℤ))
  | _ => (parseDigits l).map (fun n => (n : ℤ))

/-- The mantissa of a decimal literal: `DecimalDigits`,
`DecimalDigits . DecimalDigits?`, or `. DecimalDigits` (so `"1."` and
`".5"` parse but `"."` does not). -/
def parseMantissa (l : List Char) : Option ℚ :=
  match splitAtFirst isDotChar l with
  | (intPart, none) => (parseDigits intPart).map (fun n => (n : ℚ))
  | (intPart, some fracPart) =>
    if intPart = [] ∧ fracPart = [] then none
    else
      match parseDigitsAllowEmpty intPart, parseDigitsAllowEmpty fracPart with
      | some ip, some fp =>
        some ((ip : ℚ) + (fp : ℚ) / (10 : ℚ) ^ fracPart.length)
      | _, _ => none

/-- `StrUnsignedDecimalLiteral`: the literal `Infinity`, or a mantissa
with an optional exponent part (`"1e2"` is 100, `"1e"` is `NaN`). -/
def parseUnsignedDec (l : List Char) : JsNum :=
  if l = "Infinity".data then .posInf
  else
    match splitAtFirst isExpChar l with
    | (mant, none) =>
      match parseMantissa mant with
      | some v => .num v
      | none => .nan
    | (mant, some expPart) =>
      match parseMantissa mant, parseExponent expPart with
      | some v, some e => .num (v * (10 : ℚ) ^ e)
      | _, _ => .nan

/-- `NonDecimalIntegerLiteral`: `0x`/`0X` hexadecimal, `0b`/`0B` binary,
`0o`/`0O` octal (unsigned only — a sign before these is `NaN`). -/
def parseNonDecimal (l : List Char) : Option ℚ :=
  match l with
  | c0 :: c1 :: rest =>
    if c0 == '0' then
      if c1 == 'x' || c1 == 'X' then
        (parseRadixDigits 16 hexVal rest).map (fun n => (n : ℚ))
      else if c1 == 'b' || c1 == 'B' then
        (parseRadixDigits 2 digitVal rest).map (fun n => (n : ℚ))
      else if c1 == 'o' || c1 == 'O' then
        (parseRadixDigits 8 digitVal rest).map (fun n => (n : ℚ))
      else none
    else none
  | _ => none

/-- The `StrNumericLiteral` grammar on an already-trimmed character list:
empty means 0; a sign applies only to a decimal literal (so `"-0x10"` is
`NaN`); otherwise a non-decimal integer literal or an unsigned decimal
literal. -/
def parseJsNumber : List Char → JsNum
  | [] => .num 0
  | c :: rest =>
    if c == '+' then parseUnsignedDec rest
    else if c == '-' then jsNeg (parseUnsignedDec rest)
    else
      match parseNonDecimal (c :: rest) with
      | some q => .num q
      | none => parseUnsignedDec (c :: rest)

/-- JavaScript `Number(string)` on a character list: trim whitespace, then
parse the `StrNumericLiteral` grammar, `NaN` on failure.  Faithful to the
ECMAScript conversion (`Number(" 7") = 7`, `Number("1.5") = 1.5`,
`Number("1e2") = 100`, `Number(" ") = 0`, `Number("0x10") = 16`,
`Number("Infinity") = Infinity`) up to the exact-rational convention
stated on `JsNum`. -/
def jsToNumberChars (l : List Char) : JsNum := parseJsNumber (jsTrim l)

/-- `Number` on a string (see `jsToNumberChars`). -/
def jsToNumber (s : String) : JsNum := jsToNumberChars s.data

/-- JavaScript multiplication on parsed numbers: `NaN` is absorbing,
infinities follow the sign of the other factor, and `Infinity * 0` is
`NaN`. -/
def jsMul : JsNum → JsNum → JsNum
  | .nan, _ => .nan
  | _, .nan => .nan
  | .num a, .num b => .num (a * b)
  | .posInf, .num b => if 0 < b then .posInf else if b < 0 then .negInf else .nan
  | .negInf, .num b => if 0 < b then .negInf else if b < 0 then .posInf else .nan
  | .num a, .posInf => if 0 < a then .posInf else if a < 0 then .negInf else .nan
  | .num a, .negInf => if 0 < a then .negInf else if a < 0 then .posInf else .nan
  | .posInf, .posInf => .posInf
  | .posInf, .negInf => .negInf
  | .negInf, .posInf => .negInf
  | .negInf, .negInf => .posInf

/-- JavaScript addition on parsed numbers: `NaN` is absorbing and
oppositely signed infinities give `NaN`. -/
def jsAdd : JsNum → JsNum → JsNum
  | .nan, _ => .nan
  | _, .nan => .nan
  | .num a, .num b => .num (a + b)
  | .posInf, .negInf => .nan
  | .negInf, .posInf => .nan
  | .posInf, _ => .posInf
  | _, .posInf => .posInf
  | .negInf, _ => .negInf
  | _, .negInf => .negInf

/-- `YouTubeMusicPlugin.convertDurationToSeconds` (plugin lines 648-663).
`""` is the only falsy string, hitting the `if (!duration) return 0`
guard; otherwise `split(":")` maps every part through `Number`, two parts
give `parts[0]*60 + parts[1]`, three give
`parts[0]*3600 + parts[1]*60 + parts[2]` (so a part `Number` cannot parse
makes the result `NaN`), and any other part count returns 0. -/
def convertDurationToSeconds (duration : String) : JsNum :=
  if duration = "" then .num 0
  else
    match (splitOnChar ':' duration.data).map jsToNumberChars with
    | [m, s] => jsAdd (jsMul m (.num 60)) s
    | [h, m, s] => jsAdd (jsAdd (jsMul h (.num 3600)) (jsMul m (.num 60))) s
    | _ => .num 0

/-- Whether `sub` is an initial segment of `l`. -/
def charsHasInit : List Char → List Char → Bool
  | [], _ => true
  | _ :: _, [] => false
  | a :: as, b :: bs => a = b && charsHasInit as bs

/-- Whether `sub` occurs contiguously in `l`. -/
def charsContains : List Char → List Char → Bool
  | [], sub => sub.isEmpty
  | c :: tl, sub => charsHasInit sub (c :: tl) || charsContains tl sub

/-- JavaScript `s.includes(sub)`. -/
def strContains (s sub : String) : Bool := charsContains s.data sub.data

/-- The `YouTubeMusicPlugin` options relevant to the modelled operations
(plugin constructor lines 12-24): `parallel` selects the batch conversion
mode, `maxViews` caps collection track counts (a non-negative count; the
default is 10). -/
structure PluginOptions where
  parallel : Bool
  maxViews : ℕ
  deriving Repr, DecidableEq

/-- A track record as returned by the search API (`ytmusic-api`
boundary): only the fields the plugin reads.  `none` models a missing
field; thumbnails are modelled by their `url` strings and artists by their
`name` strings, the only sub-fields the plugin touches.  (The API may also
deliver `duration` as a number of seconds; the claims quantify over the
string form, which is what the spec's parsing policy describes.) -/
structure UpstreamTrack where
  videoId : Option String := none
  title : Option String := none
  thumbnails : Option (List String) := none
  duration : Option String := none
  artists : Option (List String) := none
  deriving Repr, DecidableEq

/-- `v || dflt` on strings: JavaScript string truthiness (only `""` is
falsy). -/
def jsOrString (v : Option String) (dflt : String) : String :=
  match v with
  | some s => if s = "" then dflt else s
  | none => dflt

/-- `xs && xs.length > 0 ? xs[xs.length - 1].url : null`. -/
def lastThumbnail (thumbs : Option (List String)) : Option String :=
  match thumbs with
  | some l => if l.length > 0 then l.getLast? else none
  | none => none

/-- `artists && artists.length > 0 ? artists.map(a => a.name).join(", ")
: "Unknown Artist"`. -/
def uploaderName (artists : Option (List String)) : String :=
  match artists with
  | some l => if l.length > 0 then String.intercalate ", " l else "Unknown Artist"
  | none => "Unknown Artist"

/-- The host `Song` value object: the fields the plugin sets from a track
(construction sites at plugin lines 337-356, 386-404, 450-468, 530-548,
616-632).  `duration` is a `JsNum` because duration parsing can produce
`NaN`; `isLive` and `views` are set only on the single-video path and
default to the absent-field values elsewhere. -/
structure SongObj where
  id : String
  name : String
  url : String
  thumbnail : Option String
  duration : JsNum
  uploader : String
  isLive : Bool := false
  views : ℤ := 0
  deriving Repr, DecidableEq

/-- Whether the `new Song(...)` constructor throws for a given track: the
`try/catch` inside `processTrack` (plugin lines 380-409) maps a throw to a
dropped entry. -/
structure CtorEnv where
  ctorThrows : UpstreamTrack → Bool

/-- The per-track conversion `processTrack` (plugin lines 380-409):
`null` for a missing track, a missing or empty `videoId`, or a constructor
throw; otherwise the built `Song`. -/
def processTrack (env : CtorEnv) (t : Option UpstreamTrack) : Option SongObj :=
  match t with
  | none => none
  | some track =>
    match track.videoId with
    | none => none
    | some vid =>
      if vid = "" then none
      else if env.ctorThrows track then none
      else some
        { id := vid
          name := jsOrString track.title "Unknown Title"
          url := "https://music.youtube.com/watch?v=" ++ vid
          thumbnail := lastThumbnail track.thumbnails
          duration :=
            match track.duration with
            | some d => if d = "" then .num 0 else convertDurationToSeconds d
            | none => .num 0
          uploader := uploaderName track.artists }

/-- The sequential branch of `processPlaylistTracks` (plugin lines
414-419): convert one at a time, pushing each successful conversion. -/
def processSeq (env : CtorEnv) : List (Option UpstreamTrack) → List SongObj
  | [] => []
  | t :: ts =>
    match processTrack env t with
    | some s => s :: processSeq env ts
    | none => processSeq env ts

/-- `YouTubeMusicPlugin.processPlaylistTracks` (plugin lines 377-422): the
`parallel` option selects `Promise.all` over the mapped conversions
followed by `filter(Boolean)` (`Promise.all` preserves input order in its
result array), versus the sequential loop. -/
def processPlaylistTracks (opts : PluginOptions) (env : CtorEnv)
    (tracks : List (Option UpstreamTrack)) : List SongObj :=
  if opts.parallel then (tracks.map (processTrack env)).filterMap id
  else processSeq env tracks

/-- The URL classes produced by `extractId` (plugin lines 193-226). -/
inductive UrlType
  | video
  | playlist
  | album
  | artist
  deriving Repr, DecidableEq

/-- The `type` string used in the outer catch message of `resolve`. -/
def urlTypeName : UrlType → String
  | .video => "video"
  | .playlist => "playlist"
  | .album => "album"
  | .artist => "artist"

/-- A `DisTubeError` as thrown by the adapter: the `INVALID_TYPE` guard or
a `YTMUSIC_PLUGIN_ERROR` carrying a message string. -/
inductive PluginErr
  | invalidType
  | pluginError (msg : String)
  deriving Repr, DecidableEq

/-- The outer `catch` of `resolve` (plugin lines 363-367):
`Failed to resolve <type>: <error.message || "Unknown error">`. -/
def normalizeResolveErr (ty : UrlType) (msg : String) : PluginErr :=
  .pluginError ("Failed to resolve " ++ urlTypeName ty ++ ": " ++
    (if msg = "" then "Unknown error" else msg))

/-- The host `Playlist` value object fields set by the plugin
(plugin lines 260-270, 287-297, 314-324). -/
structure PlaylistObj where
  id : String
  name : String
  url : String
  thumbnail : Option String
  songs : List SongObj
  deriving Repr, DecidableEq

/-- The polymorphic return of `resolve`: a single `Song` or a `Playlist`. -/
inductive ResolveResult
  | song (s : SongObj)
  | playlist (p : PlaylistObj)
  deriving Repr, DecidableEq

/-- A collection response from `getPlaylist`/`getAlbum`: `tracks = none`
models a missing `tracks` field (the code checks
`!info || !info.tracks`). -/
structure CollectionInfo where
  title : Option String := none
  tracks : Option (List (Option UpstreamTrack)) := none
  thumbnails : Option (List String) := none
  deriving Repr, DecidableEq

/-- An artist response from `getArtist`: the track list is under `songs`
(the code checks `!info || !info.songs || !Array.isArray(info.songs)`,
collapsed into `songs = none`). -/
structure ArtistInfo where
  name : Option String := none
  songs : Option (List (Option UpstreamTrack)) := none
  thumbnails : Option (List String) := none
  deriving Repr, DecidableEq

/-- The `videoDetails` of a `ytdl.getInfo` response (plugin lines
330-356): `lengthSeconds`/`viewCount` are kept as parsed numbers, with
`none` collapsing to 0 as `parseInt(x) || 0` does; the author object is
modelled by its `name`/`channel_url` when present. -/
structure VideoDetails where
  title : Option String := none
  thumbnails : List String := []
  lengthSeconds : Option ℤ := none
  isLiveContent : Bool := false
  viewCount : Option ℤ := none
  authorName : Option String := none
  deriving Repr, DecidableEq

/-- Upstream responses for one `resolve` call: each search-API or
stream-info call either throws (`Except.error msg`) or returns a value,
`none` modelling a falsy result. -/
structure ResolveEnv where
  getPlaylist : String → Except String (Option CollectionInfo)
  getAlbum : String → Except String (Option CollectionInfo)
  getArtist : String → Except String (Option ArtistInfo)
  getInfo : String → Except String (Option VideoDetails)

/-- Common tail of the three collection branches of `resolve`: truncate
the track list to `maxViews` (`tracks.slice(0, maxViews)`), batch-convert,
fail when nothing is playable, otherwise build the `Playlist` object. -/
def buildCollection (opts : PluginOptions) (cenv : CtorEnv) (ty : UrlType)
    (id url : String) (name : Option String) (dfltName : String)
    (thumbs : Option (List String)) (emptyMsg : String)
    (tracks : List (Option UpstreamTrack)) : Except PluginErr ResolveResult :=
  let songs := processPlaylistTracks opts cenv (tracks.take opts.maxViews)
  if songs.length = 0 then .error (normalizeResolveErr ty emptyMsg)
  else
    .ok (.playlist
      { id := id
        name := jsOrString name dfltName
        url := url
        thumbnail := lastThumbnail thumbs
        songs := songs })

/-- `YouTubeMusicPlugin.resolve` (plugin lines 234-368) from the
`switch (type)` onward, with the classified `type` and extracted non-null
`id` as inputs (the URL regular-expression extraction itself is not under
any claim).  Inner `DisTubeError` throws and upstream throws are both
re-wrapped by the outer `catch` into `Failed to resolve <type>: <msg>`. -/
def resolveDispatch (opts : PluginOptions) (renv : ResolveEnv) (cenv : CtorEnv)
    (ty : UrlType) (id url : String) : Except PluginErr ResolveResult :=
  match ty with
  | .playlist =>
    match renv.getPlaylist id with
    | .error msg => .error (normalizeResolveErr .playlist msg)
    | .ok none =>
      .error (normalizeResolveErr .playlist "Could not fetch playlist information")
    | .ok (some info) =>
      match info.tracks with
      | none =>
        .error (normalizeResolveErr .playlist "Could not fetch playlist information")
      | some tracks =>
        buildCollection opts cenv .playlist id url info.title "Unknown Playlist"
          info.thumbnails "No playable songs found in playlist" tracks
  | .album =>
    match renv.getAlbum id with
    | .error msg => .error (normalizeResolveErr .album msg)
    | .ok none =>
      .error (normalizeResolveErr .album "Could not fetch album information")
    | .ok (some info) =>
      match info.tracks with
      | none =>
        .error (normalizeResolveErr .album "Could not fetch album information")
      | some tracks =>
        buildCollection opts cenv .album id url info.title "Unknown Album"
          info.thumbnails "No playable songs found in album" tracks
  | .artist =>
    match renv.getArtist id with
    | .error msg => .error (normalizeResolveErr .artist msg)
    | .ok none =>
      .error (normalizeResolveErr .artist "Could not fetch artist information")
    | .ok (some info) =>
      match info.songs with
      | none =>
        .error (normalizeResolveErr .artist "Could not fetch artist information")
      | some tracks =>
        buildCollection opts cenv .artist id url info.name "Unknown Artist"
          info.thumbnails "No playable songs found for artist" tracks
  | .video =>
    match renv.getInfo ("https://music.youtube.com/watch?v=" ++ id) with
    | .error msg => .error (normalizeResolveErr .video msg)
    | .ok none => .error (normalizeResolveErr .video "Failed to get video details")
    | .ok (some vd) =>
      .ok (.song
        { id := id
          name := jsOrString vd.title "Unknown Title"
          url := "https://music.youtube.com/watch?v=" ++ id
          thumbnail := if vd.thumbnails.length > 0 then vd.thumbnails.getLast? else none
          duration := .num ((vd.lengthSeconds.getD 0 : ℤ) : ℚ)
          uploader := vd.authorName.getD "Unknown Artist"
          isLive := vd.isLiveContent
          views := vd.viewCount.getD 0 })

/-- An upstream stream format descriptor: the fields the boundary reads.
`hasAudio && !hasVideo` classifies audio-only entries; a missing or empty
`url` is falsy. -/
structure StreamFormat where
  url : Option String := none
  hasAudio : Bool := true
  hasVideo : Bool := false
  deriving Repr, DecidableEq

/-- An audio-only format in the sense of the `filter: "audioonly"`
criteria. -/
def isAudioOnly (f : StreamFormat) : Bool := f.hasAudio && !f.hasVideo

/-- The part of a `ytdl.getInfo` response that `getStreamURL` reads. -/
structure StreamInfo where
  formats : List StreamFormat
  deriving Repr, DecidableEq

/-- Environment for `getStreamURL`: `getInfo` fetches stream info (may
throw), `chooseFormat` is the external selector, which by its boundary
contract returns a format descriptor or throws when none match the
audio-only criteria. -/
structure StreamEnv where
  getInfo : String → Except String StreamInfo
  chooseFormat : List StreamFormat → Except String StreamFormat

/-- The `Song` argument of `getStreamURL`: only `id` is read; `none` at
the outer level models a falsy song value. -/
structure SongRef where
  id : Option String := none
  deriving Repr, DecidableEq

/-- The `catch` of `getStreamURL` (plugin lines 584-587):
`DisTubeError("YTMUSIC_PLUGIN_ERROR", e.message || "Failed to get stream URL")`. -/
def wrapStreamErr (msg : String) : PluginErr :=
  .pluginError (if msg = "" then "Failed to get stream URL" else msg)

/-- `YouTubeMusicPlugin.getStreamURL` (plugin lines 563-588): the
`INVALID_TYPE` guard throws past the `try`; inside it, `getInfo` then
`chooseFormat` run, and a falsy format or format URL raises
`"No suitable audio format found"`; every throw inside the `try` is
re-wrapped by `wrapStreamErr`. -/
def getStreamURL (env : StreamEnv) (song : Option SongRef) :
    Except PluginErr String :=
  match song with
  | none => .error .invalidType
  | some s =>
    match s.id with
    | none => .error .invalidType
    | some sid =>
      if sid = "" then .error .invalidType
      else
        match env.getInfo ("https://music.youtube.com/watch?v=" ++ sid) with
        | .error msg => .error (wrapStreamErr msg)
        | .ok info =>
          match env.chooseFormat info.formats with
          | .error msg => .error (wrapStreamErr msg)
          | .ok fmt =>
            match fmt.url with
            | none => .error (wrapStreamErr "No suitable audio format found")
            | some u =>
              if u = "" then .error (wrapStreamErr "No suitable audio format found")
              else .ok u

/-- A minimal convertible upstream track for concrete witnesses. -/
def demoTrack : UpstreamTrack := { videoId := some "vid1" }

/-- Options with the default cap of 10 and parallel conversion. -/
def demoOpts : PluginOptions := { parallel := true, maxViews := 10 }

/-- A constructor that never throws. -/
def demoCtorEnv : CtorEnv := ⟨fun _ => false⟩

/-- An upstream environment whose playlist fetch returns 15 tracks. -/
def demoResolveEnv : ResolveEnv :=
  { getPlaylist := fun _ => .ok (some
      { title := some "P"
        tracks := some (List.replicate 15 (some demoTrack))
        thumbnails := some [] })
    getAlbum := fun _ => .ok none
    getArtist := fun _ => .ok none
    getInfo := fun _ => .ok none }

/-- The `Song` that `demoTrack` converts to. -/
def demoSong : SongObj :=
  { id := "vid1"
    name := "Unknown Title"
    url := "https://music.youtube.com/watch?v=vid1"
    thumbnail := none
    duration := .num 0
    uploader := "Unknown Artist" }

/-- The `Playlist` that the demo resolve produces: 10 of the 15 tracks. -/
def demoPlaylist : PlaylistObj :=
  { id := "PL1"
    name := "P"
    url := "u"
    thumbnail := none
    songs := List.replicate 10 demoSong }

/-- A format list with no audio-only entry. -/
def noAudioFormats : List StreamFormat :=
  [{ url := some "http://x", hasAudio := true, hasVideo := true }]

/-- A stream environment over `noAudioFormats` whose `chooseFormat` throws
(per its boundary contract) with its own message. -/
def noAudioEnv : StreamEnv :=
  { getInfo := fun _ => .ok { formats := noAudioFormats }
    chooseFormat := fun _ => .error "No such format found: audioonly" }

theorem validateStep_expired_mono (now thr : ℚ) (acc : ValidAcc) (c : Cookie)
    (h : acc.hasExpired = true) : (validateStep now thr acc c).hasExpired = true := by
  unfold validateStep
  cases hc : c.expirationDate with
  | none => exact h
  | some e =>
    by_cases h0 : e = 0
    · simp [h0, h]
    · by_cases hlt : e < now
      · simp [h0, hlt]
      · by_cases hthr : e < thr <;> simp [h0, hlt, hthr, h]

theorem validateStep_expired_set (now thr : ℚ) (acc : ValidAcc) (c : Cookie) (e : ℚ)
    (he : c.expirationDate = some e) (h0 : e ≠ 0) (hlt : e < now) :
    (validateStep now thr acc c).hasExpired = true := by
  simp [validateStep, he, h0, hlt]

theorem validateStep_expired_eq (now thr : ℚ) (acc : ValidAcc) (c : Cookie)
    (h : ∀ e, c.expirationDate = some e → e ≠ 0 → ¬ e < now) :
    (validateStep now thr acc c).hasExpired = acc.hasExpired := by
  unfold validateStep
  cases hc : c.expirationDate with
  | none => rfl
  | some e =>
    by_cases h0 : e = 0
    · simp [h0]
    · have hge := h e hc h0
      by_cases hthr : e < thr <;> simp [h0, hge, hthr]

theorem validateStep_soon_mono (now thr : ℚ) (acc : ValidAcc) (c : Cookie)
    (h : acc.expiringSoon = true) : (validateStep now thr acc c).expiringSoon = true := by
  unfold validateStep
  cases hc : c.expirationDate with
  | none => exact h
  | some e =>
    by_cases h0 : e = 0
    · simp [h0, h]
    · by_cases hlt : e < now
      · simp [h0, hlt, h]
      · by_cases hthr : e < thr <;> simp [h0, hlt, hthr, h]

theorem validateStep_soon_set (now thr : ℚ) (acc : ValidAcc) (c : Cookie) (e : ℚ)
    (he : c.expirationDate = some e) (h0 : e ≠ 0) (hge : ¬ e < now) (hthr : e < thr) :
    (validateStep now thr acc c).expiringSoon = true := by
  simp [validateStep, he, h0, hge, hthr]

theorem foldl_validateStep_expired_mono (now thr : ℚ) (l : List Cookie) (acc : ValidAcc)
    (h : acc.hasExpired = true) :
    (l.foldl (validateStep now thr) acc).hasExpired = true := by
  induction l generalizing acc with
  | nil => exact h
  | cons a as ih => exact ih _ (validateStep_expired_mono now thr acc a h)

theorem foldl_validateStep_expired_of_mem (now thr : ℚ) (l : List Cookie) (acc : ValidAcc)
    (c : Cookie) (e : ℚ) (hc : c ∈ l) (he : c.expirationDate = some e)
    (h0 : e ≠ 0) (hlt : e < now) :
    (l.foldl (validateStep now thr) acc).hasExpired = true := by
  induction l generalizing acc with
  | nil => cases hc
  | cons a as ih =>
    rcases List.mem_cons.mp hc with rfl | hmem
    · exact foldl_validateStep_expired_mono now thr as _
        (validateStep_expired_set now thr acc c e he h0 hlt)
    · exact ih _ hmem

theorem foldl_validateStep_expired_eq (now thr : ℚ) (l : List Cookie) (acc : ValidAcc)
    (h : ∀ c' ∈ l, ∀ e', c'.expirationDate = some e' → e' ≠ 0 → ¬ e' < now) :
    (l.foldl (validateStep now thr) acc).hasExpired = acc.hasExpired := by
  induction l generalizing acc with
  | nil => rfl
  | cons a as ih =>
    rw [List.foldl_cons, ih _ (fun c' hmem => h c' (List.mem_cons_of_mem a hmem)),
      validateStep_expired_eq now thr acc a (h a (List.mem_cons_self a as))]

theorem foldl_validateStep_soon_mono (now thr : ℚ) (l : List Cookie) (acc : ValidAcc)
    (h : acc.expiringSoon = true) :
    (l.foldl (validateStep now thr) acc).expiringSoon = true := by
  induction l generalizing acc with
  | nil => exact h
  | cons a as ih => exact ih _ (validateStep_soon_mono now thr acc a h)

theorem foldl_validateStep_soon_of_mem (now thr : ℚ) (l : List Cookie) (acc : ValidAcc)
    (c : Cookie) (e : ℚ) (hc : c ∈ l) (he : c.expirationDate = some e)
    (h0 : e ≠ 0) (hge : ¬ e < now) (hthr : e < thr) :
    (l.foldl (validateStep now thr) acc).expiringSoon = true := by
  induction l generalizing acc with
  | nil => cases hc
  | cons a as ih =>
    rcases List.mem_cons.mp hc with rfl | hmem
    · exact foldl_validateStep_soon_mono now thr as _
        (validateStep_soon_set now thr acc c e he h0 hge hthr)
    · exact ih _ hmem

example : (validateCookies defaultManager 1000 (some [])).valid = false := by
  norm_num [validateCookies, noCookiesResult]

example : (validateCookies defaultManager 1000
    (some [{ name := "a", expirationDate := some 500 }])).expired = true := by
  norm_num [validateCookies, validateStep, minExpiry, defaultManager]

example : (validateCookies defaultManager 1000
    (some [{ name := "a", expirationDate := some 2000 }])).expiringSoon = true := by
  norm_num [validateCookies, validateStep, minExpiry, defaultManager]

example : (validateCookies defaultManager 1000
    (some [{ name := "a", expirationDate := some 0 }])).expired = false := by
  norm_num [validateCookies, validateStep, minExpiry, defaultManager]

/-- Claim C1 counterexample: a set whose only cookie has `expirationDate = 0`
(epoch seconds, strictly before the current time `1000`) is reported as not
expired and valid, because the code's truthiness guard
`if (cookie.expirationDate)` skips a zero expiration date.  The claim as
stated demands `expired = true` and `valid = false` here. -/
theorem validateCookies_zero_expiry_not_expired :
    ((0 : ℚ) < 1000) ∧
    (validateCookies defaultManager 1000
      (some [{ name := "SID", expirationDate := some 0 }])).expired = false ∧
    (validateCookies defaultManager 1000
      (some [{ name := "SID", expirationDate := some 0 }])).valid = true := by
  refine ⟨by norm_num, ?_, ?_⟩ <;>
    norm_num [validateCookies, validateStep, minExpiry, defaultManager]

/-- Claim C1 (amended): for every credential set containing at least one
cookie whose `expirationDate` is present, nonzero (JavaScript-truthy), and
strictly before the current time, `validateCookies` returns
`expired = true` and `valid = false`, regardless of the other cookies. -/
theorem validateCookies_expired_of_mem (m : CookieManager) (now : ℚ)
    (cs : List Cookie) (c : Cookie) (e : ℚ) (hc : c ∈ cs)
    (he : c.expirationDate = some e) (h0 : e ≠ 0) (hlt : e < now) :
    (validateCookies m now (some cs)).expired = true ∧
    (validateCookies m now (some cs)).valid = false := by
  have hne : ¬ cs.length = 0 := by
    cases cs with
    | nil => cases hc
    | cons a as => simp
  have hexp := foldl_validateStep_expired_of_mem now
    (now + m.refreshBeforeExpiry / 1000) cs ⟨false, false, none⟩ c e hc he h0 hlt
  simp [validateCookies, hne, hexp]

/-- Witness for the amended claim C1 at a concrete input. -/
theorem validateCookies_expired_of_mem_witness :
    (validateCookies defaultManager 1000
      (some [{ name := "a", expirationDate := some 500 }])).expired = true ∧
    (validateCookies defaultManager 1000
      (some [{ name := "a", expirationDate := some 500 }])).valid = false :=
  validateCookies_expired_of_mem defaultManager 1000 _
    { name := "a", expirationDate := some 500 } 500 (by simp) rfl
    (by norm_num) (by norm_num)

/-- Claim C2: for every credential set in which no cookie's expiration date
is before the (positive) current time but at least one cookie's expiration
date lies within the `refreshBeforeExpiry` lead time (in ms, hence the
division by 1000), `validateCookies` returns `expiringSoon = true` together
with `valid = true`.  Non-emptiness follows from the existential hypothesis. -/
theorem validateCookies_expiringSoon_of_mem (m : CookieManager) (now : ℚ)
    (cs : List Cookie) (c : Cookie) (e : ℚ) (hc : c ∈ cs)
    (he : c.expirationDate = some e) (hnow : 0 < now)
    (hnoexp : ∀ c' ∈ cs, ∀ e', c'.expirationDate = some e' → ¬ e' < now)
    (hwin : e < now + m.refreshBeforeExpiry / 1000) :
    (validateCookies m now (some cs)).expiringSoon = true ∧
    (validateCookies m now (some cs)).valid = true := by
  have hne : ¬ cs.length = 0 := by
    cases cs with
    | nil => cases hc
    | cons a as => simp
  have hge : ¬ e < now := hnoexp c hc e he
  have h0 : e ≠ 0 := by
    intro h
    exact hge (h ▸ hnow)
  have hsoon := foldl_validateStep_soon_of_mem now
    (now + m.refreshBeforeExpiry / 1000) cs ⟨false, false, none⟩ c e hc he h0 hge hwin
  have hnex := foldl_validateStep_expired_eq now
    (now + m.refreshBeforeExpiry / 1000) cs ⟨false, false, none⟩
    (fun c' hmem e' he' _ => hnoexp c' hmem e' he')
  simp [validateCookies, hne, hsoon, hnex]

/-- Witness for claim C2 at a concrete input. -/
theorem validateCookies_expiringSoon_of_mem_witness :
    (validateCookies defaultManager 1000
      (some [{ name := "a", expirationDate := some 2000 }])).expiringSoon = true ∧
    (validateCookies defaultManager 1000
      (some [{ name := "a", expirationDate := some 2000 }])).valid = true :=
  validateCookies_expiringSoon_of_mem defaultManager 1000 _
    { name := "a", expirationDate := some 2000 } 2000 (by simp) rfl (by norm_num)
    (by
      intro c' hmem e' he'
      simp at hmem
      subst hmem
      simp at he'
      subst he'
      norm_num)
    (by norm_num [defaultManager])

/-- Claim C3 counterexample: the empty-input message produced by the code is
the literal `"No cookies provided"`, not the claim's
`"No credentials provided"`. -/
theorem validateCookies_empty_message_literal :
    (validateCookies defaultManager 1000 (some [])).message = "No cookies provided" ∧
    (validateCookies defaultManager 1000 (some [])).message ≠ "No credentials provided" := by
  constructor
  · rfl
  · intro h
    rw [show (validateCookies defaultManager 1000 (some [])).message
        = "No cookies provided" from rfl] at h
    simp at h

/-- Claim C3 (amended): `validateCookies` applied to an empty array and to
any non-array input (modelled by `none`) returns `valid = false` with the
message `"No cookies provided"` (the claim's wording
`"No credentials provided"` does not match the code's literal), and never
raises (the embedding is a total function). -/
theorem validateCookies_empty_or_nonarray (m : CookieManager) (now : ℚ) :
    (validateCookies m now none).valid = false ∧
    (validateCookies m now none).message = "No cookies provided" ∧
    (validateCookies m now (some [])).valid = false ∧
    (validateCookies m now (some [])).message = "No cookies provided" :=
  ⟨rfl, rfl, rfl, rfl⟩

/-- Claim C4: when Puppeteer has not been loaded and `require("puppeteer")`
fails, `refreshCookies` returns `none`, invokes the registered
`onRefreshError` callback exactly once, performs no file write (so the
credential file is untouched), and leaves the manager state unchanged.  It
returns rather than raising: the embedding is a total function. -/
theorem refreshCookies_puppeteer_unavailable (m : CookieManager) (fs : FileSys)
    (env : RefreshEnv) (hload : m.puppeteerLoaded = false)
    (havail : env.puppeteerAvailable = false) (hcb : m.hasOnRefreshError = true) :
    (refreshCookies m fs env).2.1 = none ∧
    ((refreshCookies m fs env).2.2).count MgrEvent.refreshErrorCall = 1 ∧
    (∀ p cs, MgrEvent.fileWrite p cs ∉ (refreshCookies m fs env).2.2) ∧
    (refreshCookies m fs env).1 = m := by
  have hres : refreshCookies m fs env = (m, none, [MgrEvent.refreshErrorCall]) := by
    simp [refreshCookies, hload, havail, refreshErrEvents, hcb]
  rw [hres]
  refine ⟨rfl, ?_, ?_, rfl⟩
  · simp [List.count_singleton]
  · intro p cs h
    simp at h

/-- Witness for claim C4 at a concrete manager and environment. -/
theorem refreshCookies_puppeteer_unavailable_witness :
    (refreshCookies errorCbManager stubFs unavailableEnv).2.1 = none ∧
    ((refreshCookies errorCbManager stubFs unavailableEnv).2.2).count
      MgrEvent.refreshErrorCall = 1 ∧
    (∀ p cs, MgrEvent.fileWrite p cs ∉ (refreshCookies errorCbManager stubFs unavailableEnv).2.2) ∧
    (refreshCookies errorCbManager stubFs unavailableEnv).1 = errorCbManager :=
  refreshCookies_puppeteer_unavailable errorCbManager stubFs unavailableEnv rfl rfl rfl

/-- Claim C5: on a tick of the periodic-refresh scheduler, the current
credential set is loaded and validated, and `refreshCookies` is invoked on
that tick if and only if the validation result satisfies
`!valid || expiringSoon` — stated as an equality of the invocation flag
with that boolean, which in particular means no refresh attempt is made
when the set is valid and not expiring soon. -/
theorem autoRefreshTick_refreshes_iff_invalid_or_soon (m : CookieManager)
    (now : ℚ) (fs : FileSys) (env : RefreshEnv) :
    (autoRefreshTick m now fs env).2.2
      = (!(validateCookies (loadCookies m fs (.path m.cookiesPath)).1 now
            (some (loadCookies m fs (.path m.cookiesPath)).2)).valid
         || (validateCookies (loadCookies m fs (.path m.cookiesPath)).1 now
            (some (loadCookies m fs (.path m.cookiesPath)).2)).expiringSoon) := by
  unfold autoRefreshTick
  set v := validateCookies (loadCookies m fs (.path m.cookiesPath)).1 now
    (some (loadCookies m fs (.path m.cookiesPath)).2) with hv
  by_cases h : (!v.valid || v.expiringSoon) = true
  · simp [h]
  · simp only [Bool.not_eq_true] at h
    simp [h]

theorem loadCookies_path_fst (m : CookieManager) (fs : FileSys) (p : String) :
    (loadCookies m fs (.path p)).1 = { m with cookiesPath := p } := by
  simp only [loadCookies]
  cases fs.read p with
  | none => rfl
  | some r => cases r <;> rfl

@[simp] theorem writesOnlyTo_refreshErrEvents (m : CookieManager) (p : String) :
    writesOnlyTo (refreshErrEvents m) p = true := by
  unfold refreshErrEvents
  by_cases h : m.hasOnRefreshError <;> simp [h, writesOnlyTo]

@[simp] theorem writesOnlyTo_close_cons (evs : List MgrEvent) (p : String) :
    writesOnlyTo (MgrEvent.browserClose :: evs) p = writesOnlyTo evs p := by
  simp [writesOnlyTo]

theorem writesOnlyTo_close_refreshErr (m : CookieManager) (p : String) :
    writesOnlyTo (MgrEvent.browserClose :: refreshErrEvents m) p = true := by
  rw [writesOnlyTo_close_cons]
  exact writesOnlyTo_refreshErrEvents m p

theorem readBackStep_writes (m1 : CookieManager) (wo : Bool)
    (pc : Except String (List PuppeteerCookie)) :
    writesOnlyTo (readBackStep m1 wo pc).2 m1.cookiesPath = true := by
  cases pc with
  | error e => simp [readBackStep]
  | ok pcs =>
    by_cases hu : m1.hasOnCookiesUpdated = true <;>
      simp [readBackStep, saveCookies, writesOnlyTo, hu]

theorem waitResultStep_writes (m1 : CookieManager)
    (pc : Except String (List PuppeteerCookie)) (wo : Bool)
    (w : Except String Unit) :
    writesOnlyTo (waitResultStep m1 pc wo w).2 m1.cookiesPath = true := by
  cases w with
  | error e => simp [waitResultStep]
  | ok u => exact readBackStep_writes m1 wo pc

theorem loginProbeStep_writes (m1 : CookieManager) (lw : Except String Unit)
    (pc : Except String (List PuppeteerCookie)) (wo : Bool)
    (il : Except String Bool) :
    writesOnlyTo (loginProbeStep m1 lw pc wo il).2 m1.cookiesPath = true := by
  cases il with
  | error e => simp [loginProbeStep]
  | ok logged => exact waitResultStep_writes m1 pc wo _

theorem refreshTryBlock_writes (m1 : CookieManager) (lw : Except String Unit)
    (pc : Except String (List PuppeteerCookie)) (wo : Bool)
    (il : Except String Bool) (g : Except String Unit) :
    writesOnlyTo (refreshTryBlock m1 lw pc wo il g).2 m1.cookiesPath = true := by
  cases g with
  | error e => simp [refreshTryBlock]
  | ok u => exact loginProbeStep_writes m1 lw pc wo il

theorem refreshCookies_writes_configured_path (m : CookieManager) (fs : FileSys)
    (env : RefreshEnv) :
    writesOnlyTo (refreshCookies m fs env).2.2 m.cookiesPath = true := by
  obtain ⟨pa, la, np, gt, il, lw, pc, wo⟩ := env
  unfold refreshCookies
  by_cases hp : ¬ m.puppeteerLoaded = true ∧ ¬ pa = true
  · rw [if_pos hp]
    exact writesOnlyTo_refreshErrEvents _ _
  · rw [if_neg hp]
    cases la with
    | error e => exact writesOnlyTo_refreshErrEvents _ _
    | ok u =>
      cases np with
      | error e => simp
      | ok u2 =>
        have h := refreshTryBlock_writes
          ((loadCookies { m with puppeteerLoaded := true } fs
            (.path ({ m with puppeteerLoaded := true } : CookieManager).cookiesPath)).1)
          lw pc wo il gt
        rw [loadCookies_path_fst] at h
        simpa [loadCookies_path_fst] using h

/-- Claim C10: `loadCookies` with a string argument `p` durably sets the
manager's `cookiesPath` to `p` and changes no other field (the frame is
captured by the record-update equality); every subsequent `saveCookies`
(including the one inside `refreshCookies`, whose write always targets the
manager's configured path) then writes to `p`; and `loadCookies` with an
array argument changes no field at all and returns the array as-is. -/
theorem loadCookies_path_sets_cookiesPath_only (m : CookieManager) (fs : FileSys)
    (p : String) (cs : List Cookie) :
    (loadCookies m fs (.path p)).1 = { m with cookiesPath := p } ∧
    loadCookies m fs (.arr cs) = (m, cs) ∧
    (∀ ok ws, (saveCookies (loadCookies m fs (.path p)).1 ok ws).2
        = [MgrEvent.fileWrite p ws]) ∧
    (∀ env, writesOnlyTo (refreshCookies (loadCookies m fs (.path p)).1 fs env).2.2 p
        = true) := by
  have hfst := loadCookies_path_fst m fs p
  refine ⟨hfst, rfl, ?_, ?_⟩
  · intro ok ws
    rw [hfst]
    rfl
  · intro env
    have h2 := refreshCookies_writes_configured_path (loadCookies m fs (.path p)).1 fs env
    rw [hfst] at h2 ⊢
    simpa using h2

theorem processSeq_eq_filterMap (env : CtorEnv)
    (tracks : List (Option UpstreamTrack)) :
    processSeq env tracks = tracks.filterMap (processTrack env) := by
  induction tracks with
  | nil => rfl
  | cons t ts ih =>
    unfold processSeq
    cases h : processTrack env t <;> simp [List.filterMap_cons, h, ih]

theorem processPlaylistTracks_eq_filterMap (opts : PluginOptions) (env : CtorEnv)
    (tracks : List (Option UpstreamTrack)) :
    processPlaylistTracks opts env tracks = tracks.filterMap (processTrack env) := by
  unfold processPlaylistTracks
  by_cases hp : opts.parallel = true
  · simp [hp, List.filterMap_map]
  · simp [hp, processSeq_eq_filterMap]

theorem processPlaylistTracks_length_le (opts : PluginOptions) (env : CtorEnv)
    (tracks : List (Option UpstreamTrack)) :
    (processPlaylistTracks opts env tracks).length ≤ tracks.length := by
  rw [processPlaylistTracks_eq_filterMap]
  exact List.length_filterMap_le _ _

theorem buildCollection_songs_le (opts : PluginOptions) (cenv : CtorEnv)
    (ty : UrlType) (id url : String) (name : Option String) (dflt : String)
    (thumbs : Option (List String)) (msg : String)
    (tracks : List (Option UpstreamTrack)) (p : PlaylistObj)
    (h : buildCollection opts cenv ty id url name dflt thumbs msg tracks
        = .ok (.playlist p)) :
    p.songs.length ≤ opts.maxViews := by
  unfold buildCollection at h
  by_cases hz : (processPlaylistTracks opts cenv (tracks.take opts.maxViews)).length = 0
  · rw [if_pos hz] at h
    simp at h
  · rw [if_neg hz] at h
    simp only [Except.ok.injEq, ResolveResult.playlist.injEq] at h
    subst h
    simp only []
    exact le_trans (processPlaylistTracks_length_le _ _ _) (List.length_take_le _ _)

/-- Claim C7: for every collection identifier (playlist, album, or artist)
whose upstream fetch succeeds and whose resolve returns a collection, the
upstream track list was truncated to the configured maximum (`maxViews`)
before conversion, so the returned collection contains at most `maxViews`
songs (15 upstream tracks with a cap of 10 yield at most 10). -/
theorem resolve_collection_truncates (opts : PluginOptions) (renv : ResolveEnv)
    (cenv : CtorEnv) (ty : UrlType) (id url : String) (p : PlaylistObj)
    (hty : ty = UrlType.playlist ∨ ty = UrlType.album ∨ ty = UrlType.artist)
    (hres : resolveDispatch opts renv cenv ty id url = .ok (.playlist p)) :
    p.songs.length ≤ opts.maxViews := by
  rcases hty with rfl | rfl | rfl
  · unfold resolveDispatch at hres
    generalize hgp : renv.getPlaylist id = r at hres
    cases r with
    | error msg => simp at hres
    | ok oinfo =>
      cases oinfo with
      | none => simp at hres
      | some info =>
        simp only [] at hres
        generalize htr : info.tracks = tr at hres
        cases tr with
        | none => simp at hres
        | some tracks =>
          simp only [] at hres
          exact buildCollection_songs_le _ _ _ _ _ _ _ _ _ _ _ hres
  · unfold resolveDispatch at hres
    generalize hgp : renv.getAlbum id = r at hres
    cases r with
    | error msg => simp at hres
    | ok oinfo =>
      cases oinfo with
      | none => simp at hres
      | some info =>
        simp only [] at hres
        generalize htr : info.tracks = tr at hres
        cases tr with
        | none => simp at hres
        | some tracks =>
          simp only [] at hres
          exact buildCollection_songs_le _ _ _ _ _ _ _ _ _ _ _ hres
  · unfold resolveDispatch at hres
    generalize hgp : renv.getArtist id = r at hres
    cases r with
    | error msg => simp at hres
    | ok oinfo =>
      cases oinfo with
      | none => simp at hres
      | some info =>
        simp only [] at hres
        generalize htr : info.songs = tr at hres
        cases tr with
        | none => simp at hres
        | some tracks =>
          simp only [] at hres
          exact buildCollection_songs_le _ _ _ _ _ _ _ _ _ _ _ hres

/-- Witness for claim C7: the demo playlist fetch returns 15 tracks with a
cap of 10, and the resolved collection holds at most 10 songs. -/
theorem resolve_collection_truncates_witness :
    demoPlaylist.songs.length ≤ demoOpts.maxViews :=
  resolve_collection_truncates demoOpts demoResolveEnv demoCtorEnv
    UrlType.playlist "PL1" "u" demoPlaylist (Or.inl rfl) rfl

/-- Claim C8: the concurrent (`parallel = true`) and sequential
(`parallel = false`) modes of `processPlaylistTracks` produce the same
song list on every input: both equal the order-preserving `filterMap` of
the per-track conversion, which drops exactly the non-convertible entries
(missing track, missing `videoId`, or a conversion throw). -/
theorem processPlaylistTracks_parallel_eq_sequential (env : CtorEnv)
    (tracks : List (Option UpstreamTrack)) (mvp mvs : ℕ) :
    processPlaylistTracks ⟨true, mvp⟩ env tracks
      = processPlaylistTracks ⟨false, mvs⟩ env tracks
    ∧ processPlaylistTracks ⟨true, mvp⟩ env tracks
      = tracks.filterMap (processTrack env) := by
  constructor
  · rw [processPlaylistTracks_eq_filterMap, processPlaylistTracks_eq_filterMap]
  · exact processPlaylistTracks_eq_filterMap _ _ _

theorem foldl_digitStep_none (l : List Char) : l.foldl digitStep none = none := by
  induction l with
  | nil => rfl
  | cons a as ih =>
    rw [List.foldl_cons]
    exact ih

theorem foldl_digitStep_bad (l : List Char) (acc : Option ℕ) (c : Char)
    (hc : c ∈ l) (hd : digitVal c = none) : l.foldl digitStep acc = none := by
  induction l generalizing acc with
  | nil => cases hc
  | cons a as ih =>
    rw [List.foldl_cons]
    rcases List.mem_cons.mp hc with rfl | hmem
    · have hstep : digitStep acc c = none := by
        cases acc with
        | none => rfl
        | some n => simp [digitStep, hd]
      rw [hstep]
      exact foldl_digitStep_none as
    · exact ih _ hmem

theorem parseDigits_digit_range (l : List Char) (n : ℕ)
    (h : parseDigits l = some n) : ∀ c ∈ l, 48 ≤ c.toNat ∧ c.toNat ≤ 57 := by
  intro c hc
  by_cases hr : 48 ≤ c.toNat ∧ c.toNat ≤ 57
  · exact hr
  · exfalso
    have hd : digitVal c = none := by simp [digitVal, hr]
    cases l with
    | nil => cases hc
    | cons a as =>
      simp only [parseDigits] at h
      rw [foldl_digitStep_bad (a :: as) (some 0) c hc hd] at h
      cases h

theorem digit_ne_char (c d : Char) (h1 : 48 ≤ c.toNat) (h2 : c.toNat ≤ 57)
    (hd : d.toNat < 48 ∨ 57 < d.toNat) : c ≠ d := by
  intro h
  subst h
  omega

theorem jsWhitespaceChar_digit (c : Char) (h1 : 48 ≤ c.toNat)
    (h2 : c.toNat ≤ 57) : jsWhitespaceChar c = false := by
  unfold jsWhitespaceChar
  rw [decide_eq_false_iff_not]
  omega

theorem dropWhile_eq_self_of_all (p : Char → Bool) (l : List Char)
    (h : ∀ c ∈ l, p c = false) : l.dropWhile p = l := by
  cases l with
  | nil => rfl
  | cons a as =>
    rw [List.dropWhile_cons, h a (List.mem_cons_self a as)]
    simp

theorem jsTrim_eq_self (l : List Char)
    (h : ∀ c ∈ l, jsWhitespaceChar c = false) : jsTrim l = l := by
  unfold jsTrim
  rw [dropWhile_eq_self_of_all _ _ h,
    dropWhile_eq_self_of_all _ _ (fun c hc => h c (List.mem_reverse.mp hc)),
    List.reverse_reverse]

theorem splitAtFirst_eq_self (p : Char → Bool) (l : List Char)
    (h : ∀ c ∈ l, p c = false) : splitAtFirst p l = (l, none) := by
  induction l with
  | nil => rfl
  | cons a as ih =>
    unfold splitAtFirst
    rw [h a (List.mem_cons_self a as)]
    simp [ih (fun c hc => h c (List.mem_cons_of_mem a hc))]

theorem isExpChar_digit (c : Char) (h1 : 48 ≤ c.toNat) (h2 : c.toNat ≤ 57) :
    isExpChar c = false := by
  unfold isExpChar
  rw [Bool.or_eq_false_iff]
  exact ⟨beq_eq_false_iff_ne.mpr (digit_ne_char c 'e' h1 h2 (by decide)),
    beq_eq_false_iff_ne.mpr (digit_ne_char c 'E' h1 h2 (by decide))⟩

theorem isDotChar_digit (c : Char) (h1 : 48 ≤ c.toNat) (h2 : c.toNat ≤ 57) :
    isDotChar c = false := by
  unfold isDotChar
  exact beq_eq_false_iff_ne.mpr (digit_ne_char c '.' h1 h2 (by decide))

theorem parseNonDecimal_digits (l : List Char)
    (hall : ∀ c ∈ l, 48 ≤ c.toNat ∧ c.toNat ≤ 57) :
    parseNonDecimal l = none := by
  cases l with
  | nil => rfl
  | cons c0 t =>
    cases t with
    | nil => rfl
    | cons c1 rest =>
      have h1 := hall c1 (by simp)
      have hx := beq_eq_false_iff_ne.mpr (digit_ne_char c1 'x' h1.1 h1.2 (by decide))
      have hX := beq_eq_false_iff_ne.mpr (digit_ne_char c1 'X' h1.1 h1.2 (by decide))
      have hb := beq_eq_false_iff_ne.mpr (digit_ne_char c1 'b' h1.1 h1.2 (by decide))
      have hB := beq_eq_false_iff_ne.mpr (digit_ne_char c1 'B' h1.1 h1.2 (by decide))
      have ho := beq_eq_false_iff_ne.mpr (digit_ne_char c1 'o' h1.1 h1.2 (by decide))
      have hO := beq_eq_false_iff_ne.mpr (digit_ne_char c1 'O' h1.1 h1.2 (by decide))
      unfold parseNonDecimal
      simp [hx, hX, hb, hB, ho, hO]

theorem parseUnsignedDec_digits (l : List Char) (n : ℕ)
    (hall : ∀ c ∈ l, 48 ≤ c.toNat ∧ c.toNat ≤ 57)
    (h : parseDigits l = some n) : parseUnsignedDec l = .num (n : ℚ) := by
  have hinf : l ≠ "Infinity".data := by
    intro he
    have hI : 'I' ∈ l := by
      rw [he]
      decide
    exact absurd (hall 'I' hI) (by decide)
  unfold parseUnsignedDec
  rw [if_neg hinf, splitAtFirst_eq_self isExpChar l
    (fun c hc => isExpChar_digit c (hall c hc).1 (hall c hc).2)]
  simp only []
  unfold parseMantissa
  rw [splitAtFirst_eq_self isDotChar l
    (fun c hc => isDotChar_digit c (hall c hc).1 (hall c hc).2)]
  simp [h]

theorem jsToNumberChars_digits (l : List Char) (n : ℕ)
    (h : parseDigits l = some n) : jsToNumberChars l = JsNum.num (n : ℚ) := by
  have hall := parseDigits_digit_range l n h
  unfold jsToNumberChars
  rw [jsTrim_eq_self l
    (fun c hc => jsWhitespaceChar_digit c (hall c hc).1 (hall c hc).2)]
  cases l with
  | nil => simp [parseDigits] at h
  | cons c rest =>
    have hc := hall c (List.mem_cons_self c rest)
    have hplus := beq_eq_false_iff_ne.mpr (digit_ne_char c '+' hc.1 hc.2 (by decide))
    have hminus := beq_eq_false_iff_ne.mpr (digit_ne_char c '-' hc.1 hc.2 (by decide))
    unfold parseJsNumber
    simp only [hplus, hminus, Bool.false_eq_true, if_false,
      parseNonDecimal_digits (c :: rest) hall]
    exact parseUnsignedDec_digits (c :: rest) n hall h

theorem jsAdd_nan_left (a : JsNum) : jsAdd .nan a = .nan := by
  cases a <;> rfl

theorem jsAdd_nan_right (a : JsNum) : jsAdd a .nan = .nan := by
  cases a <;> rfl

theorem jsMul_nan_left (a : JsNum) : jsMul .nan a = .nan := by
  cases a <;> rfl

theorem jsMul_nan_right (a : JsNum) : jsMul a .nan = .nan := by
  cases a <;> rfl

theorem splitOnChar_empty_ne (s : String) (parts : List (List Char))
    (hs : s = "") (hsplit : splitOnChar ':' s.data = parts)
    (hlen : parts.length ≠ 1) : False := by
  subst hs
  rw [show ("" : String).data = [] from rfl] at hsplit
  simp [splitOnChar] at hsplit
  subst hsplit
  simp at hlen

theorem convertDuration_two_digit_parts (s : String) (p q : List Char)
    (mv sv : ℕ) (hsplit : splitOnChar ':' s.data = [p, q])
    (hp : parseDigits p = some mv) (hq : parseDigits q = some sv) :
    convertDurationToSeconds s = .num ((mv : ℚ) * 60 + (sv : ℚ)) := by
  have hs : s ≠ "" := fun h => splitOnChar_empty_ne s [p, q] h hsplit (by simp)
  unfold convertDurationToSeconds
  rw [if_neg hs, hsplit]
  simp [jsToNumberChars_digits p mv hp, jsToNumberChars_digits q sv hq,
    jsMul, jsAdd]

theorem convertDuration_three_digit_parts (s : String) (p q r : List Char)
    (hv mv sv : ℕ) (hsplit : splitOnChar ':' s.data = [p, q, r])
    (hp : parseDigits p = some hv) (hq : parseDigits q = some mv)
    (hr : parseDigits r = some sv) :
    convertDurationToSeconds s
      = .num ((hv : ℚ) * 3600 + (mv : ℚ) * 60 + (sv : ℚ)) := by
  have hs : s ≠ "" := fun h => splitOnChar_empty_ne s [p, q, r] h hsplit (by simp)
  unfold convertDurationToSeconds
  rw [if_neg hs, hsplit]
  simp [jsToNumberChars_digits p hv hp, jsToNumberChars_digits q mv hq,
    jsToNumberChars_digits r sv hr, jsMul, jsAdd]

/-- Claim C6 counterexample: `"a:b"` splits into two parts that
JavaScript `Number` cannot parse, a shape for which the claim demands 0,
but the code computes `Number("a")*60 + Number("b") = NaN`, not 0. -/
theorem convertDuration_nonnumeric_ne_zero :
    convertDurationToSeconds "a:b" = JsNum.nan
    ∧ convertDurationToSeconds "a:b" ≠ JsNum.num 0 := by
  refine ⟨by decide, by decide⟩

/-- Claim C6 (amended): `convertDurationToSeconds` maps a two-part digit
string "MM:SS" to `MM*60 + SS` and a three-part digit string "HH:MM:SS" to
`HH*3600 + MM*60 + SS` (so `"3:45"` yields 225 and `"1:02:03"` yields
3723), and returns 0 for every input whose colon-split has any other
number of parts (in particular `"garbage"` and `""` yield 0); a two- or
three-part input with a component that `Number` parses to `NaN`, however,
yields `NaN`, not 0. -/
theorem convertDurationToSeconds_characterization :
    (∀ s : String, (splitOnChar ':' s.data).length ≠ 2 →
        (splitOnChar ':' s.data).length ≠ 3 →
        convertDurationToSeconds s = .num 0)
    ∧ (∀ (s : String) (p q : List Char) (mv sv : ℕ),
        splitOnChar ':' s.data = [p, q] →
        parseDigits p = some mv → parseDigits q = some sv →
        convertDurationToSeconds s = .num ((mv : ℚ) * 60 + (sv : ℚ)))
    ∧ (∀ (s : String) (p q r : List Char) (hv mv sv : ℕ),
        splitOnChar ':' s.data = [p, q, r] →
        parseDigits p = some hv → parseDigits q = some mv →
        parseDigits r = some sv →
        convertDurationToSeconds s
          = .num ((hv : ℚ) * 3600 + (mv : ℚ) * 60 + (sv : ℚ)))
    ∧ (∀ (s : String) (p q : List Char),
        splitOnChar ':' s.data = [p, q] →
        jsToNumberChars p = JsNum.nan ∨ jsToNumberChars q = JsNum.nan →
        convertDurationToSeconds s = JsNum.nan)
    ∧ (∀ (s : String) (p q r : List Char),
        splitOnChar ':' s.data = [p, q, r] →
        jsToNumberChars p = JsNum.nan ∨ jsToNumberChars q = JsNum.nan ∨
          jsToNumberChars r = JsNum.nan →
        convertDurationToSeconds s = JsNum.nan)
    ∧ convertDurationToSeconds "3:45" = .num 225
    ∧ convertDurationToSeconds "1:02:03" = .num 3723
    ∧ convertDurationToSeconds "garbage" = .num 0
    ∧ convertDurationToSeconds "" = .num 0 := by
  refine ⟨?_, ?_, ?_, ?_, ?_, ?_, ?_, by decide, by decide⟩
  · intro s h2 h3
    by_cases hs : s = ""
    · subst hs
      decide
    · unfold convertDurationToSeconds
      rw [if_neg hs]
      cases hL : splitOnChar ':' s.data with
      | nil => simp
      | cons a L1 =>
        cases L1 with
        | nil => simp
        | cons b L2 =>
          cases L2 with
          | nil =>
            rw [hL] at h2
            simp at h2
          | cons c L3 =>
            cases L3 with
            | nil =>
              rw [hL] at h3
              simp at h3
            | cons d tl => simp
  · intro s p q mv sv hsplit hp hq
    exact convertDuration_two_digit_parts s p q mv sv hsplit hp hq
  · intro s p q r hv mv sv hsplit hp hq hr
    exact convertDuration_three_digit_parts s p q r hv mv sv hsplit hp hq hr
  · intro s p q hsplit hnone
    have hs : s ≠ "" := fun h => splitOnChar_empty_ne s [p, q] h hsplit (by simp)
    unfold convertDurationToSeconds
    rw [if_neg hs, hsplit]
    rcases hnone with hp | hq
    · simp [hp, jsMul_nan_left, jsAdd_nan_left]
    · simp [hq, jsAdd_nan_right]
  · intro s p q r hsplit hnone
    have hs : s ≠ "" := fun h => splitOnChar_empty_ne s [p, q, r] h hsplit (by simp)
    unfold convertDurationToSeconds
    rw [if_neg hs, hsplit]
    rcases hnone with hp | hq | hr
    · simp [hp, jsMul_nan_left, jsAdd_nan_left]
    · simp [hq, jsMul_nan_left, jsAdd_nan_left, jsAdd_nan_right]
    · simp [hr, jsAdd_nan_right]
  · have h2 := convertDuration_two_digit_parts "3:45" "3".data "45".data 3 45
      (by decide) (by decide) (by decide)
    rw [h2]
    norm_num
  · have h3 := convertDuration_three_digit_parts "1:02:03"
      "1".data "02".data "03".data 1 2 3 (by decide) (by decide) (by decide)
      (by decide)
    rw [h3]
    norm_num

/-- Witness for the amended claim C6: a two-part digit string evaluated
through the characterization. -/
theorem convertDurationToSeconds_characterization_witness :
    convertDurationToSeconds "7:05"
      = JsNum.num (((7 : ℕ) : ℚ) * 60 + ((5 : ℕ) : ℚ)) :=
  convertDurationToSeconds_characterization.2.1 "7:05" "7".data "05".data 7 5
    (by decide) (by decide) (by decide)

/-- Claim C9 counterexample: with a format list containing no audio-only
entry and `chooseFormat` raising (per its boundary contract) its own
message, `getStreamURL` reports exactly that message, which does not
contain `"No suitable audio format found"`. -/
theorem getStreamURL_no_audio_message_differs :
    (noAudioFormats.all fun f => !(isAudioOnly f)) = true
    ∧ getStreamURL noAudioEnv (some { id := some "abc" })
        = .error (.pluginError "No such format found: audioonly")
    ∧ strContains "No such format found: audioonly" "No suitable audio format found"
        = false :=
  ⟨by decide, rfl, by decide⟩

/-- Claim C9 (amended): whenever the upstream format list contains no
audio-only entry, `chooseFormat` raises (boundary contract) and
`getStreamURL` fails with a `YTMUSIC_PLUGIN_ERROR` carrying chooseFormat's
own raise message (or the fallback for an empty message); the literal
`"No suitable audio format found"` arises only when `chooseFormat` returns
a descriptor with a falsy `url`, which the contract rules out here. -/
theorem getStreamURL_no_audio_wraps_chooseFormat_error (env : StreamEnv)
    (s : SongRef) (sid : String) (info : StreamInfo) (msg : String)
    (hid : s.id = some sid) (hsid : sid ≠ "")
    (hinfo : env.getInfo ("https://music.youtube.com/watch?v=" ++ sid) = .ok info)
    (_hnoaudio : ∀ f ∈ info.formats, isAudioOnly f = false)
    (hcf : env.chooseFormat info.formats = .error msg) :
    getStreamURL env (some s) = .error (wrapStreamErr msg) := by
  simp [getStreamURL, hid, hsid, hinfo, hcf]

/-- Witness for the amended claim C9 at a concrete environment. -/
theorem getStreamURL_no_audio_wraps_chooseFormat_error_witness :
    getStreamURL noAudioEnv (some { id := some "abc" })
      = .error (wrapStreamErr "No such format found: audioonly") :=
  getStreamURL_no_audio_wraps_chooseFormat_error noAudioEnv { id := some "abc" }
    "abc" { formats := noAudioFormats } "No such format found: audioonly"
    rfl (by decide) rfl (by decide) rfl

end YtmPlugin
